import Mathlib

/-!
Shallow embedding of the OMS trading client's state and analytics core
(tradingStore, Analytics page, OrderBook component, TradeForm), together
with theorems settling the spec's testable properties.

Numbers that are JavaScript `number` values in the source are modelled as
`Rat`; timestamps are modelled as `Nat`; display formatting (`toFixed`)
is omitted, so a statistic the UI renders as the string '0' is modelled
as the rational value 0. TypeScript string-union fields (`side`, `status`,
`type`) are modelled as `String` and compared with `==`, mirroring the
source's `===` comparisons against string literals.
-/

/-- One record of the account's order history, as fetched from
GET /me/orders (interface `AnalyticsTrade` in the trading store).
Optional TypeScript fields become `Option`; execution data
(`exec_price`, `exec_qty`, `slippage_bps`, `exec_created_at`) is absent
on a PENDING record. -/
structure AnalyticsTrade where
  order_id : Nat
  symbol : String
  side : String
  otype : String
  quantity : Rat
  limit_price : Option Rat
  status : String
  arrival_mid : Option Rat
  created_at : Nat
  updated_at : Nat
  exec_id : Option Nat
  exec_price : Option Rat
  exec_qty : Option Rat
  slippage_bps : Option Rat
  exec_created_at : Option Nat
deriving DecidableEq, Repr

/-- Analytics page: `filteredTrades = selectedSymbol ? trades.filter(t => t.symbol === selectedSymbol) : trades`. -/
def filteredTrades (trades : List AnalyticsTrade) (selectedSymbol : Option String) : List AnalyticsTrade :=
  match selectedSymbol with
  | some s => trades.filter (fun t => t.symbol == s)
  | none => trades

/-- Analytics page: `filledTrades = filteredTrades.filter(t => t.status === 'FILLED')`. -/
def filledOf (ts : List AnalyticsTrade) : List AnalyticsTrade :=
  ts.filter (fun t => t.status == "FILLED")

/-- The six derived statistics of the Analytics page's `stats_local` object
(numeric values; `toFixed`/string rendering omitted). -/
structure StatsLocal where
  totalTrades : Nat
  fillRate : Rat
  totalQuantity : Rat
  avgSlippage : Rat
  buyTrades : Nat
  sellTrades : Nat
deriving DecidableEq, Repr

/-- Analytics page `stats_local`, computed over an already-filtered trade
list: `fillRate = filled/total*100` guarded by `totalTrades > 0` (else the
source renders '0'); `totalQuantity` sums `exec_qty || 0` over FILLED
trades only; `avgSlippage` averages `slippage_bps || 0` over FILLED trades
only, guarded by `filledTrades.length > 0` (else '0'); buy/sell counts are
over all trades in the list. -/
def stats_local (ts : List AnalyticsTrade) : StatsLocal :=
  let filled := filledOf ts
  { totalTrades := ts.length
    fillRate :=
      if ts.length > 0 then ((filled.length : Rat) / (ts.length : Rat)) * 100 else 0
    totalQuantity := filled.foldl (fun sum t => sum + t.exec_qty.getD 0) 0
    avgSlippage :=
      if filled.length > 0 then
        (filled.foldl (fun sum t => sum + t.slippage_bps.getD 0) 0) / (filled.length : Rat)
      else 0
    buyTrades := (ts.filter (fun t => t.side == "BUY")).length
    sellTrades := (ts.filter (fun t => t.side == "SELL")).length }

/-- A concrete PENDING trade with no execution data, used by witnesses. -/
def pendingTrade : AnalyticsTrade :=
  { order_id := 3, symbol := "BTC-USD", side := "BUY", otype := "MARKET"
    quantity := 1, limit_price := none, status := "PENDING"
    arrival_mid := some 100, created_at := 3, updated_at := 3
    exec_id := none, exec_price := none, exec_qty := none
    slippage_bps := none, exec_created_at := none }

/-- A concrete FILLED trade builder, used by witnesses and counterexamples. -/
def filledTrade (id : Nat) (t : Nat) (slip : Rat) : AnalyticsTrade :=
  { order_id := id, symbol := "BTC-USD", side := "BUY", otype := "MARKET"
    quantity := 1, limit_price := none, status := "FILLED"
    arrival_mid := some 100, created_at := t, updated_at := t
    exec_id := some id, exec_price := some 100, exec_qty := some 1
    slippage_bps := some slip, exec_created_at := some t }

lemma filledOf_append_pending (ts : List AnalyticsTrade) (p : AnalyticsTrade)
    (hp : p.status = "PENDING") : filledOf (ts ++ [p]) = filledOf ts := by
  simp [filledOf, List.filter_append, hp]

/-- C1: the average-slippage statistic sums `slippage_bps` only over
FILLED records: appending a PENDING record (which carries no execution
data) to the history never changes `avgSlippage`, and `avgSlippage` is 0
(rendered '0') when the history has no FILLED record. -/
theorem avgSlippage_filled_only (ts : List AnalyticsTrade) (p : AnalyticsTrade)
    (hp : p.status = "PENDING") :
    (stats_local (ts ++ [p])).avgSlippage = (stats_local ts).avgSlippage ∧
    (filledOf ts = [] → (stats_local ts).avgSlippage = 0) := by
  constructor
  · simp only [stats_local, filledOf_append_pending ts p hp]
  · intro h
    simp [stats_local, h]

/-- Witness for C1 at a concrete history: appending `pendingTrade` to a
two-fill history leaves `avgSlippage` unchanged, and the empty history has
`avgSlippage = 0`. -/
theorem avgSlippage_filled_only_witness :
    (stats_local ([filledTrade 1 1 4, filledTrade 2 2 6] ++ [pendingTrade])).avgSlippage
      = (stats_local [filledTrade 1 1 4, filledTrade 2 2 6]).avgSlippage ∧
    (filledOf [] = [] → (stats_local ([] : List AnalyticsTrade)).avgSlippage = 0) :=
  ⟨(avgSlippage_filled_only [filledTrade 1 1 4, filledTrade 2 2 6] pendingTrade (by decide)).1,
   (avgSlippage_filled_only [] pendingTrade (by decide)).2⟩

/-- C5: for every order history, `fillRate` lies in [0, 100], and the empty
history has `fillRate = 0` (rendered '0'). -/
theorem fillRate_bounds (ts : List AnalyticsTrade) :
    0 ≤ (stats_local ts).fillRate ∧ (stats_local ts).fillRate ≤ 100 ∧
    (stats_local ([] : List AnalyticsTrade)).fillRate = 0 := by
  have hlen : (filledOf ts).length ≤ ts.length := List.length_filter_le _ _
  refine ⟨?_, ?_, by simp [stats_local]⟩
  · simp only [stats_local]
    split
    · positivity
    · norm_num
  · simp only [stats_local]
    split
    · rename_i h
      have hpos : (0 : Rat) < (ts.length : Rat) := by exact_mod_cast h
      have hdiv : ((filledOf ts).length : Rat) / (ts.length : Rat) ≤ 1 := by
        rw [div_le_one hpos]
        exact_mod_cast hlen
      nlinarith [hdiv]
    · norm_num

/-- Analytics page slippage-trend pipeline:
`filledTrades.slice(-20).reverse()`. JavaScript `slice(-20)` keeps the last
20 elements (the whole list when shorter), modelled with `drop`; `reverse`
then reverses that window. The chart derives its labels and data points
from this record sequence. -/
def slippageChartSeries (ts : List AnalyticsTrade) : List AnalyticsTrade :=
  ((filledOf ts).drop ((filledOf ts).length - 20)).reverse

/-- Series the spec describes for the slippage trend: "the most recent
N (N=20) FILLED records in chronological order (oldest first)". For a
history already in chronological (oldest-first) order this is the last 20
records of the filled subsequence, kept in order (no reversal). -/
def specSlippageSeries (ts : List AnalyticsTrade) : List AnalyticsTrade :=
  (filledOf ts).drop ((filledOf ts).length - 20)

/-- C3 counterexample: on the chronological (oldest-first) two-fill history
[t=1, t=2] the code's series is [t=2, t=1] — newest first — while the
spec's "most recent 20 in chronological order (oldest first)" series is
[t=1, t=2]; the two differ, so the series is not presented oldest-first. -/
theorem slippageChart_not_oldest_first :
    (slippageChartSeries [filledTrade 1 1 4, filledTrade 2 2 6]).map
        (fun t => t.created_at) = [2, 1] ∧
    specSlippageSeries [filledTrade 1 1 4, filledTrade 2 2 6]
      = [filledTrade 1 1 4, filledTrade 2 2 6] ∧
    slippageChartSeries [filledTrade 1 1 4, filledTrade 2 2 6]
      ≠ specSlippageSeries [filledTrade 1 1 4, filledTrade 2 2 6] := by
  refine ⟨by decide, by decide, by decide⟩

/-- C3 amended: the slippage trend series has at most 20 entries, contains
only FILLED records, is unchanged by appending PENDING records (they are
excluded before windowing, so a pending backlog never displaces fills from
the window), and equals the REVERSAL of the last-20 window of the filled
subsequence — so on a chronological (oldest-first) history it lists the
most recent 20 fills newest first, not oldest first. -/
theorem slippageChart_window (ts : List AnalyticsTrade) :
    (slippageChartSeries ts).length ≤ 20 ∧
    (∀ t ∈ slippageChartSeries ts, t.status = "FILLED") ∧
    (∀ ps : List AnalyticsTrade, (∀ p ∈ ps, p.status = "PENDING") →
      slippageChartSeries (ts ++ ps) = slippageChartSeries ts) ∧
    slippageChartSeries ts = (specSlippageSeries ts).reverse := by
  refine ⟨?_, ?_, ?_, rfl⟩
  · simp only [slippageChartSeries, List.length_reverse, List.length_drop]
    omega
  · intro t ht
    simp only [slippageChartSeries, List.mem_reverse] at ht
    have := List.mem_of_mem_drop ht
    simp only [filledOf, List.mem_filter, beq_iff_eq] at this
    exact this.2
  · intro ps hps
    have hfil : filledOf (ts ++ ps) = filledOf ts := by
      simp only [filledOf, List.filter_append]
      have : ps.filter (fun t => t.status == "FILLED") = [] := by
        rw [List.filter_eq_nil_iff]
        intro a ha
        simp [hps a ha]
      rw [this, List.append_nil]
    simp only [slippageChartSeries, hfil]

/-- Witness for C3's amended theorem at a concrete history: two fills plus
an appended pending backlog of one record. -/
theorem slippageChart_window_witness :
    (slippageChartSeries [filledTrade 1 1 4, filledTrade 2 2 6]).length ≤ 20 ∧
    (∀ t ∈ slippageChartSeries [filledTrade 1 1 4, filledTrade 2 2 6], t.status = "FILLED") ∧
    (∀ ps : List AnalyticsTrade, (∀ p ∈ ps, p.status = "PENDING") →
      slippageChartSeries ([filledTrade 1 1 4, filledTrade 2 2 6] ++ ps)
        = slippageChartSeries [filledTrade 1 1 4, filledTrade 2 2 6]) ∧
    slippageChartSeries [filledTrade 1 1 4, filledTrade 2 2 6]
      = (specSlippageSeries [filledTrade 1 1 4, filledTrade 2 2 6]).reverse :=
  slippageChart_window [filledTrade 1 1 4, filledTrade 2 2 6]

/-- C9: selecting a symbol recomputes every derived statistic over exactly
the subset of history records whose symbol matches, and the filled-only
rule commutes with the symbol filter: the FILLED subset of the narrowed
history is the symbol-restriction of the FILLED subset of the full
history. -/
theorem stats_symbol_filter (ts : List AnalyticsTrade) (s : String) :
    stats_local (filteredTrades ts (some s))
      = stats_local (ts.filter (fun t => t.symbol == s)) ∧
    filledOf (filteredTrades ts (some s))
      = (filledOf ts).filter (fun t => t.symbol == s) := by
  refine ⟨rfl, ?_⟩
  simp only [filteredTrades, filledOf, List.filter_filter]
  apply List.filter_congr
  intro t _
  exact Bool.and_comm _ _

/-- Order book level (interface `OrderLevel`). -/
structure OrderLevel where
  side : String
  price : Rat
  size : Rat
deriving DecidableEq, Repr

/-- Order book snapshot (interface `OrderBook` / `OrderBookData`). -/
structure OrderBook where
  symbol : String
  mid : Rat
  bids : List OrderLevel
  asks : List OrderLevel
deriving DecidableEq, Repr

/-- Synchronous submit response (interface `OrderResponse` in the trading
store; its TypeScript type declares `exec_price` and `slippage` as
always-present numbers). -/
structure OrderResponse where
  order_id : Nat
  symbol : String
  side : String
  otype : String
  quantity : Rat
  limit_price : Rat
  arrival_mid : Rat
  exec_price : Rat
  slippage : Rat
  status : String
deriving DecidableEq, Repr

/-- Venue-computed per-account aggregates (interface `SymbolStats`). -/
structure SymbolStats where
  symbol : String
  trades : Nat
  total_qty : Rat
  buy_qty : Rat
  sell_qty : Rat
  net_qty : Rat
  avg_exec_price : Rat
  avg_slippage_usd : Rat
  avg_slippage_bps : Rat
deriving DecidableEq, Repr

/-- Coarse dashboard metrics (interface `DashboardStats`). -/
structure DashboardStats where
  open_orders : Nat
  portfolio_value : Rat
deriving DecidableEq, Repr

/-- The zustand trading store's state slots (`TradingStore` minus its
actions). `zustand`'s `set` merges a partial object into this record, so
each action is modelled as a function that returns the record with exactly
the slots the source's `set` calls name replaced. -/
structure TradingState where
  orderBook : Option OrderBook
  selectedSymbol : Option String
  selectedSide : Option String
  isLoading : Bool
  error : Option String
  trades : List AnalyticsTrade
  stats : Option SymbolStats
  lastOrder : Option OrderResponse
  dashboardStats : Option DashboardStats
deriving DecidableEq, Repr

/-- The store's initial state: all slots empty, `trades = []`. -/
def initialTradingState : TradingState :=
  { orderBook := none, selectedSymbol := none, selectedSide := none
    isLoading := false, error := none, trades := []
    stats := none, lastOrder := none, dashboardStats := none }

/-- Store action `fetchOrderBook`, with the awaited HTTP outcome passed in
explicitly: first `set(isLoading: true, error: null)`, then on success
`set(orderBook: response.data, isLoading: false)`, on failure
`set(error: errorMsg, isLoading: false)` — the `orderBook` slot is not
named in the failure `set`, so the merge leaves it unchanged. -/
def fetchOrderBook (s : TradingState) (result : Except String OrderBook) : TradingState :=
  let s1 := { s with isLoading := true, error := none }
  match result with
  | .ok book => { s1 with orderBook := some book, isLoading := false }
  | .error msg => { s1 with error := some msg, isLoading := false }

/-- Store action `fetchAllTrades` (GET /me/orders), outcome passed in
explicitly. A successful response body may be a JSON null (`Option.none`):
the handler stores `response.data || []`. On failure only `error` and
`isLoading` are set. -/
def fetchAllTrades (s : TradingState)
    (result : Except String (Option (List AnalyticsTrade))) : TradingState :=
  let s1 := { s with isLoading := true, error := none }
  match result with
  | .ok data => { s1 with trades := data.getD [], isLoading := false }
  | .error msg => { s1 with error := some msg, isLoading := false }

/-- Store action `fetchDashboardStats` (GET /me/stats), outcome passed in
explicitly: on success `set(dashboardStats: response.data)` (nothing
else); on failure the catch block only logs to the console — no `set`
call at all, and no rethrow. -/
def fetchDashboardStats (s : TradingState)
    (result : Except String DashboardStats) : TradingState :=
  match result with
  | .ok d => { s with dashboardStats := some d }
  | .error _ => s

/-- The Dashboard's 30-second polling loop applies `fetchDashboardStats`
to each tick's outcome in sequence. -/
def pollDashboardStats (s : TradingState)
    (results : List (Except String DashboardStats)) : TradingState :=
  results.foldl fetchDashboardStats s

/-- C4: when GET /me/orders succeeds with a null body (empty account), the
store's `trades` slot becomes the empty list — never null — with no error
set; and every statistic the Analytics page derives from the empty list
takes its zero-defined value (in particular `fillRate = 0`, rendered '0').
The derivation is a total function, so no exception is possible. -/
theorem fetchAllTrades_null_body (s : TradingState) :
    (fetchAllTrades s (.ok none)).trades = [] ∧
    (fetchAllTrades s (.ok none)).error = none ∧
    (fetchAllTrades s (.ok none)).isLoading = false ∧
    stats_local (fetchAllTrades s (.ok none)).trades
      = { totalTrades := 0, fillRate := 0, totalQuantity := 0
          avgSlippage := 0, buyTrades := 0, sellTrades := 0 } := by
  refine ⟨rfl, rfl, rfl, ?_⟩
  simp [fetchAllTrades, stats_local, filledOf]

/-- C7: a failed order-book fetch sets the error slot and leaves every
other slot of the store untouched — in particular the previously cached
snapshot survives for rendering; when no prior snapshot exists
(`s.orderBook = none`), preservation means the error slot is the only
newly observable state. -/
theorem fetchOrderBook_failure_frame (s : TradingState) (msg : String) :
    (fetchOrderBook s (.error msg)).orderBook = s.orderBook ∧
    (fetchOrderBook s (.error msg)).error = some msg ∧
    (fetchOrderBook s (.error msg)).isLoading = false ∧
    (fetchOrderBook s (.error msg)).trades = s.trades ∧
    (fetchOrderBook s (.error msg)).stats = s.stats ∧
    (fetchOrderBook s (.error msg)).lastOrder = s.lastOrder ∧
    (fetchOrderBook s (.error msg)).dashboardStats = s.dashboardStats ∧
    (fetchOrderBook s (.error msg)).selectedSymbol = s.selectedSymbol ∧
    (fetchOrderBook s (.error msg)).selectedSide = s.selectedSide :=
  ⟨rfl, rfl, rfl, rfl, rfl, rfl, rfl, rfl, rfl⟩

/-- C8: a failed dashboard-stats refresh leaves the entire store state
unchanged — it sets no error slot and no other slot, and (being a total
function whose catch block swallows the failure) throws nothing to its
caller; in the polling loop a failed tick is a no-op, so the next
scheduled tick proceeds from the same state and is never suppressed. -/
theorem fetchDashboardStats_failure_swallowed (s : TradingState) (e : String)
    (rest : List (Except String DashboardStats)) :
    fetchDashboardStats s (.error e) = s ∧
    pollDashboardStats s (.error e :: rest) = pollDashboardStats s rest :=
  ⟨rfl, rfl⟩

/-- Trade request sent to POST /trade/ (interface `TradeRequest`):
`limit_price` is attached only for LIMIT orders. -/
structure TradeRequest where
  symbol : String
  side : String
  otype : String
  quantity : Rat
  limit_price : Option Rat
deriving DecidableEq, Repr

/-- Outcome of the TradeForm submit handler: either it stops locally at
validation (the `alert` + early `return` path, no network activity), or it
issues the network call to the venue with the built request. -/
inductive SubmitOutcome where
  | validationFailure (msg : String)
  | networkCall (req : TradeRequest)
deriving DecidableEq, Repr

/-- TradeForm `handleSubmit`: the only local check is
`if (!quantity || parseFloat(quantity) <= 0)` — an empty quantity input is
modelled as `none`, a parsed numeric input as `some q`. When the check
passes, the request is built with
`limit_price: type === 'LIMIT' ? parseFloat(limitPrice) : undefined` and
handed to `submitTrade`, which performs the POST; the limit price input is
modelled as `Option Rat` and is passed through without any check. -/
def handleSubmit (symbol side ty : String) (quantity limitPrice : Option Rat) : SubmitOutcome :=
  match quantity with
  | none => .validationFailure "Please enter a valid quantity"
  | some q =>
    if q ≤ 0 then .validationFailure "Please enter a valid quantity"
    else .networkCall
      { symbol := symbol, side := side, otype := ty, quantity := q
        limit_price := if ty == "LIMIT" then limitPrice else none }

/-- C2 counterexample: a LIMIT submission with quantity 1 and
`limit_price = 0` — a violation of the claimed precondition
`limit_price > 0` — is NOT stopped locally: `handleSubmit` issues the
network call carrying `limit_price = 0` to the venue, so the limit-price
precondition is not enforced before the network call. -/
theorem handleSubmit_limit_price_unvalidated :
    handleSubmit "BTC-USD" "BUY" "LIMIT" (some 1) (some 0)
      = .networkCall
          { symbol := "BTC-USD", side := "BUY", otype := "LIMIT"
            quantity := 1, limit_price := some 0 } ∧
    ¬ (0 : Rat) > 0 := by
  refine ⟨by decide, by norm_num⟩

/-- C2 amended: before any network call the submit handler enforces only
that the quantity field parses and is > 0 — every network call carries a
positive quantity, and a missing or non-positive quantity fails locally
(alert + early return, the local validation failure) with no network
call. The limit price of a LIMIT order is not validated client-side: it is
passed through to the venue as entered. -/
theorem handleSubmit_quantity_guard (symbol side ty : String) (q lp : Option Rat) :
    (∀ req, handleSubmit symbol side ty q lp = .networkCall req →
      q = some req.quantity ∧ 0 < req.quantity) ∧
    (∀ qv, q = some qv → qv ≤ 0 →
      handleSubmit symbol side ty q lp = .validationFailure "Please enter a valid quantity") ∧
    (q = none →
      handleSubmit symbol side ty q lp = .validationFailure "Please enter a valid quantity") := by
  refine ⟨?_, ?_, ?_⟩
  · intro req hreq
    match q with
    | none => simp [handleSubmit] at hreq
    | some qv =>
      by_cases hq : qv ≤ 0
      · simp [handleSubmit, hq] at hreq
      · simp only [handleSubmit, if_neg hq] at hreq
        cases hreq
        exact ⟨rfl, lt_of_not_le hq⟩
  · intro qv hqv hle
    subst hqv
    simp [handleSubmit, hle]
  · intro hq
    subst hq
    rfl

/-- Witness for C2's amended theorem: the spec scenario — a submission
with quantity 0 fails locally with the validation message and never
reaches the venue client. -/
theorem handleSubmit_quantity_guard_witness :
    handleSubmit "BTC-USD" "BUY" "MARKET" (some 0) none
      = .validationFailure "Please enter a valid quantity" :=
  (handleSubmit_quantity_guard "BTC-USD" "BUY" "MARKET" (some 0) none).2.1
    0 rfl (by norm_num)

/-- OrderBook component's data-validation gate: the snapshot is rendered
as "Order book data is incomplete" when either side's level sequence is
empty (`!bids || !asks || bids.length === 0 || asks.length === 0`). -/
def renderIncomplete (b : OrderBook) : Bool :=
  b.bids.isEmpty || b.asks.isEmpty

/-- The level sizes fed to the scaling maximum:
`[...bids.map(b => b.size || 0).filter(s => s > 0), ...asks.map(a => a.size || 0).filter(s => s > 0)]`. -/
def positiveSizes (b : OrderBook) : List Rat :=
  (b.bids.map (fun l => l.size)).filter (fun s => decide (0 < s))
    ++ (b.asks.map (fun l => l.size)).filter (fun s => decide (0 < s))

/-- JavaScript `Math.max(...args)`: `none` models the `-Infinity` returned
on an empty argument list. -/
def jsMax : List Rat → Option Rat
  | [] => none
  | x :: xs =>
    match jsMax xs with
    | none => some x
    | some m => some (max x m)

/-- OrderBook component's scaling denominator `maxSize`. -/
def maxSize (b : OrderBook) : Option Rat :=
  jsMax (positiveSizes b)

/-- Width of one level's bar:
`maxSize > 0 ? (size / maxSize) * 100 : 0` — the guard also covers the
`-Infinity` (`none`) case, short-circuiting to 0 without dividing. -/
def levelWidth (m : Option Rat) (size : Rat) : Rat :=
  match m with
  | some mv => if 0 < mv then size / mv * 100 else 0
  | none => 0

lemma jsMax_pos (l : List Rat) (hl : ∀ x ∈ l, 0 < x) :
    ∀ m, jsMax l = some m → 0 < m := by
  induction l with
  | nil => intro m h; simp [jsMax] at h
  | cons x xs ih =>
    intro m h
    have hx : 0 < x := hl x (List.mem_cons_self x xs)
    have hxs : ∀ y ∈ xs, 0 < y := fun y hy => hl y (List.mem_cons_of_mem x hy)
    simp only [jsMax] at h
    cases hjs : jsMax xs with
    | none => rw [hjs] at h; cases h; exact hx
    | some m' =>
      rw [hjs] at h
      cases h
      exact lt_max_of_lt_left hx

/-- C6: a degenerate order book is handled without dividing by zero: a
snapshot with an empty bid or ask side is classified incomplete (and never
reaches the scaling code); whenever the scaling maximum exists it is a
strictly positive denominator; and when the set of positive level sizes is
empty the `maxSize > 0` guard short-circuits every level width to 0
instead of dividing. -/
theorem orderBook_degenerate_guard (b : OrderBook) :
    (b.bids = [] ∨ b.asks = [] → renderIncomplete b = true) ∧
    (∀ mv, maxSize b = some mv → 0 < mv) ∧
    (positiveSizes b = [] → ∀ l : OrderLevel, levelWidth (maxSize b) l.size = 0) := by
  refine ⟨?_, ?_, ?_⟩
  · intro h
    cases h with
    | inl h => simp [renderIncomplete, h]
    | inr h => simp [renderIncomplete, h]
  · intro mv hmv
    apply jsMax_pos (positiveSizes b) ?_ mv hmv
    intro x hx
    simp only [positiveSizes, List.mem_append, List.mem_filter,
      decide_eq_true_eq] at hx
    rcases hx with ⟨_, h⟩ | ⟨_, h⟩ <;> exact h
  · intro hempty l
    simp [maxSize, hempty, jsMax, levelWidth]

/-- Witness for C6 at concrete books: an empty-bids snapshot is classified
incomplete, and in a snapshot whose only level has size 0 the level's
width resolves to 0. -/
theorem orderBook_degenerate_guard_witness :
    renderIncomplete { symbol := "BTC-USD", mid := 100, bids := []
                       asks := [{ side := "ASK", price := 101, size := 1 }] } = true ∧
    levelWidth
      (maxSize { symbol := "BTC-USD", mid := 100
                 bids := [{ side := "BID", price := 99, size := 0 }], asks := [] })
      (OrderLevel.mk "BID" 99 0).size = 0 :=
  ⟨(orderBook_degenerate_guard _).1 (Or.inl rfl),
   (orderBook_degenerate_guard _).2.2 (by decide) (OrderLevel.mk "BID" 99 0)⟩

/-- Raw JSON payload behind the TradeForm success banner. The TypeScript
interface `OrderResponse` declares `exec_price` and `slippage` as
always-present numbers, but per the data model the server populates
execution data only once an order is FILLED (the order-history type
`AnalyticsTrade` marks the same fields optional), so the raw payload of a
still-PENDING response is modelled with the two fields optional. -/
structure RawOrderResponse where
  order_id : Nat
  symbol : String
  side : String
  otype : String
  quantity : Rat
  limit_price : Option Rat
  arrival_mid : Option Rat
  exec_price : Option Rat
  slippage : Option Rat
  status : String
deriving DecidableEq, Repr

/-- TradeForm's `lastOrder` banner body:
`lastOrder.exec_price.toFixed(2)` and `lastOrder.slippage.toFixed(4)` are
dereferenced with no status check; `some (price, slippage)` models a
banner that renders, `none` models the `TypeError` of calling `toFixed`
on an absent field. -/
def renderLastOrderBanner (o : RawOrderResponse) : Option (Rat × Rat) :=
  match o.exec_price, o.slippage with
  | some p, some sl => some (p, sl)
  | _, _ => none

/-- A still-PENDING submit response carrying no execution data. -/
def pendingOrderResponse : RawOrderResponse :=
  { order_id := 1, symbol := "BTC-USD", side := "BUY", otype := "MARKET"
    quantity := 1, limit_price := none, arrival_mid := some 100
    exec_price := none, slippage := none, status := "PENDING" }

/-- C10: the confirmation banner dereferences `exec_price` and `slippage`
unconditionally — its result is independent of the record's status — and
it renders exactly when both fields are present numbers; a still-PENDING
response without execution data (such as `pendingOrderResponse`) makes the
field access fail. -/
theorem lastOrderBanner_unconditional (o : RawOrderResponse) (st : String) :
    renderLastOrderBanner { o with status := st } = renderLastOrderBanner o ∧
    (renderLastOrderBanner o).isSome = (o.exec_price.isSome && o.slippage.isSome) ∧
    renderLastOrderBanner pendingOrderResponse = none := by
  refine ⟨rfl, ?_, rfl⟩
  rcases o with ⟨_, _, _, _, _, _, _, ep, sl, _⟩
  cases ep <;> cases sl <;> rfl
